import Mathlib

/-!
A shallow embedding of `src/marketplace-registry-cli/src/test-setup.ts` from the
`marketplace-registry-contract` repository.

The script is a linear orchestration of calls into an external wallet SDK and
ledger library.  We embed it as a pure function over an explicit "world" record
that fixes the outcome of every external call (wallet construction, restoration,
transaction build/prove/submit, contract deployment, registration), together
with an event trace recording which external steps were attempted and in which
order.  JavaScript exceptions are modelled with `Except`, `process.exit(1)` with
a dedicated `Outcome.exited` result, and the JavaScript `BigInt` string
conversion with an executable parser `stringToBigInt`.
-/

namespace MarketplaceRegistry

/-- Errors thrown by the JavaScript runtime or the wallet SDK.  `error` covers
`new Error(msg)` and arbitrary SDK failures; `bigIntConvError` covers the
conversion error thrown by the JavaScript `BigInt` builtin on a malformed
numeric string (a `SyntaxError` in JavaScript). -/
inductive JsError where
  | error (msg : String)
  | bigIntConvError (msg : String)
deriving DecidableEq

/-- JavaScript whitespace characters stripped by `BigInt(string)`
(tab, line feed, vertical tab, form feed, carriage return, space,
no-break space, line separator, paragraph separator, BOM). -/
def isJsWhitespace (c : Char) : Bool :=
  c.toNat = 9 || c.toNat = 10 || c.toNat = 11 || c.toNat = 12 || c.toNat = 13 ||
  c.toNat = 32 || c.toNat = 160 || c.toNat = 8232 || c.toNat = 8233 || c.toNat = 65279

/-- Decimal digit recogniser (code points 48 to 57). -/
def isDecDigit (c : Char) : Bool :=
  48 ≤ c.toNat && c.toNat ≤ 57

/-- Value of a decimal digit character. -/
def decDigitVal (c : Char) : Nat :=
  c.toNat - 48

/-- Hexadecimal digit recogniser. -/
def isHexDigitChar (c : Char) : Bool :=
  isDecDigit c || (97 ≤ c.toNat && c.toNat ≤ 102) || (65 ≤ c.toNat && c.toNat ≤ 70)

/-- Value of a hexadecimal digit character. -/
def hexDigitVal (c : Char) : Nat :=
  if c.toNat ≤ 57 then c.toNat - 48
  else if c.toNat ≤ 70 then c.toNat - 55
  else c.toNat - 87

/-- Octal digit recogniser. -/
def isOctDigitChar (c : Char) : Bool :=
  48 ≤ c.toNat && c.toNat ≤ 55

/-- Binary digit recogniser. -/
def isBinDigitChar (c : Char) : Bool :=
  c.toNat = 48 || c.toNat = 49

/-- Left-to-right value of a digit string in the given base. -/
def digitsVal (base : Nat) (val : Char → Nat) (ds : List Char) : Nat :=
  ds.foldl (fun acc c => base * acc + val c) 0

/-- Parse a non-empty all-digit string in the given base. -/
def parseDigits (base : Nat) (isD : Char → Bool) (val : Char → Nat) (ds : List Char) :
    Option Nat :=
  if ds ≠ [] ∧ ds.all isD then some (digitsVal base val ds) else none

/-- Strip JavaScript whitespace from both ends of a character list. -/
def trimJsWhitespace (cs : List Char) : List Char :=
  ((cs.dropWhile isJsWhitespace).reverse.dropWhile isJsWhitespace).reverse

/-- Core of the ECMAScript `StringToBigInt` grammar, applied to an already
whitespace-trimmed character list: the empty string denotes 0; `0x`/`0X`,
`0o`/`0O`, `0b`/`0B` prefixes introduce unsigned non-decimal literals; an
optional single `+` or `-` sign may precede a non-empty decimal digit string;
anything else is a conversion failure (`none`). -/
def parseTrimmed (cs : List Char) : Option Int :=
  match cs with
  | [] => some 0
  | c1 :: rest =>
    if c1 = '+' then (parseDigits 10 isDecDigit decDigitVal rest).map Int.ofNat
    else if c1 = '-' then (parseDigits 10 isDecDigit decDigitVal rest).map (fun n => -(n : Int))
    else if c1 = '0' ∧ (rest.head? = some 'x' ∨ rest.head? = some 'X') then
      (parseDigits 16 isHexDigitChar hexDigitVal rest.tail).map Int.ofNat
    else if c1 = '0' ∧ (rest.head? = some 'o' ∨ rest.head? = some 'O') then
      (parseDigits 8 isOctDigitChar hexDigitVal rest.tail).map Int.ofNat
    else if c1 = '0' ∧ (rest.head? = some 'b' ∨ rest.head? = some 'B') then
      (parseDigits 2 isBinDigitChar hexDigitVal rest.tail).map Int.ofNat
    else (parseDigits 10 isDecDigit decDigitVal (c1 :: rest)).map Int.ofNat

/-- The JavaScript `BigInt(string)` conversion: trims whitespace and applies the
`StringToBigInt` grammar; `none` models the thrown conversion error. -/
def stringToBigInt (s : String) : Option Int :=
  parseTrimmed (trimJsWhitespace s.data)

/-- Lowercase hexadecimal digit character for a value below 16. -/
def hexDigitChar (n : Nat) : Char :=
  if n < 10 then Char.ofNat (48 + n) else Char.ofNat (87 + n)

/-- Two lowercase hexadecimal characters rendering one byte. -/
def byteToHex (b : Nat) : List Char :=
  [hexDigitChar (b / 16 % 16), hexDigitChar (b % 16)]

/-- Lowercase hexadecimal rendering of a byte list: models both `toHex` from
`@midnight-ntwrk/midnight-js-utils` (used for wallet seeds) and
`Buffer.from(bytes).toString('hex')` (used for coin public keys). -/
def toHex (bytes : List Nat) : String :=
  String.mk ((bytes.map byteToHex).flatten)

/-- Recogniser for lowercase hexadecimal characters. -/
def isLowerHexDigit (c : Char) : Bool :=
  (48 ≤ c.toNat && c.toNat ≤ 57) || (97 ≤ c.toNat && c.toNat ≤ 102)

/-- The process environment as seen by the script: each of the five
configuration constants read from `process.env` at module load
(`test-setup.ts` lines 47 to 51) is either absent or a string. -/
structure Env where
  FUND_WALLET_SEED : Option String
  DESTINATION_ADDRESS : Option String
  FUNDING_AMOUNT : Option String
  PAYMENT_AMOUNT : Option String
  REGISTRATION_EMAIL : Option String
deriving DecidableEq

/-- JavaScript truthiness test used by `validateEnvironmentVariables`:
`!x` is true exactly when the variable is absent (`undefined`) or the
empty string. -/
def isFalsy : Option String → Bool
  | none => true
  | some s => s == ""

/-- The validated configuration record built by `validateEnvironmentVariables`
(`test-setup.ts` lines 61 to 67): seed, destination and email strings plus the
two amounts converted with `BigInt`. -/
structure ValidatedEnv where
  FUND_WALLET_SEED : String
  DESTINATION_ADDRESS : String
  FUNDING_AMOUNT : Int
  PAYMENT_AMOUNT : Int
  REGISTRATION_EMAIL : String
deriving DecidableEq

/-- `validateEnvironmentVariables` (`test-setup.ts` lines 54 to 68): five
truthiness checks in source order, each throwing `<NAME> is required`, then the
object literal is built, evaluating `BigInt(FUNDING_AMOUNT)` before
`BigInt(PAYMENT_AMOUNT)`; either conversion may throw. -/
def validateEnvironmentVariables (env : Env) : Except JsError ValidatedEnv :=
  if isFalsy env.FUND_WALLET_SEED then .error (.error "FUND_WALLET_SEED is required")
  else if isFalsy env.DESTINATION_ADDRESS then .error (.error "DESTINATION_ADDRESS is required")
  else if isFalsy env.FUNDING_AMOUNT then .error (.error "FUNDING_AMOUNT is required")
  else if isFalsy env.PAYMENT_AMOUNT then .error (.error "PAYMENT_AMOUNT is required")
  else if isFalsy env.REGISTRATION_EMAIL then .error (.error "REGISTRATION_EMAIL is required")
  else
    match stringToBigInt (env.FUNDING_AMOUNT.getD "") with
    | none =>
      .error (.bigIntConvError ("Cannot convert " ++ env.FUNDING_AMOUNT.getD "" ++ " to a BigInt"))
    | some fundingAmount =>
      match stringToBigInt (env.PAYMENT_AMOUNT.getD "") with
      | none =>
        .error (.bigIntConvError ("Cannot convert " ++ env.PAYMENT_AMOUNT.getD "" ++ " to a BigInt"))
      | some paymentAmount =>
        .ok {
          FUND_WALLET_SEED := env.FUND_WALLET_SEED.getD "",
          DESTINATION_ADDRESS := env.DESTINATION_ADDRESS.getD "",
          FUNDING_AMOUNT := fundingAmount,
          PAYMENT_AMOUNT := paymentAmount,
          REGISTRATION_EMAIL := env.REGISTRATION_EMAIL.getD "" }

/-- Names of the five required environment variables, as an index type. -/
inductive EnvVar where
  | fundWalletSeedVar
  | destinationAddressVar
  | fundingAmountVar
  | paymentAmountVar
  | registrationEmailVar
deriving DecidableEq

/-- The environment-variable name of each index. -/
def varName : EnvVar → String
  | .fundWalletSeedVar => "FUND_WALLET_SEED"
  | .destinationAddressVar => "DESTINATION_ADDRESS"
  | .fundingAmountVar => "FUNDING_AMOUNT"
  | .paymentAmountVar => "PAYMENT_AMOUNT"
  | .registrationEmailVar => "REGISTRATION_EMAIL"

/-- Read one of the five variables from the environment. -/
def getVar (env : Env) : EnvVar → Option String
  | .fundWalletSeedVar => env.FUND_WALLET_SEED
  | .destinationAddressVar => env.DESTINATION_ADDRESS
  | .fundingAmountVar => env.FUNDING_AMOUNT
  | .paymentAmountVar => env.PAYMENT_AMOUNT
  | .registrationEmailVar => env.REGISTRATION_EMAIL

/-- Overwrite one of the five variables in the environment. -/
def setVar (env : Env) (v : EnvVar) (s : Option String) : Env :=
  match v with
  | .fundWalletSeedVar => { env with FUND_WALLET_SEED := s }
  | .destinationAddressVar => { env with DESTINATION_ADDRESS := s }
  | .fundingAmountVar => { env with FUNDING_AMOUNT := s }
  | .paymentAmountVar => { env with PAYMENT_AMOUNT := s }
  | .registrationEmailVar => { env with REGISTRATION_EMAIL := s }

/-- The first falsy variable in the source's check order, if any. -/
def firstMissing (env : Env) : Option EnvVar :=
  if isFalsy env.FUND_WALLET_SEED then some .fundWalletSeedVar
  else if isFalsy env.DESTINATION_ADDRESS then some .destinationAddressVar
  else if isFalsy env.FUNDING_AMOUNT then some .fundingAmountVar
  else if isFalsy env.PAYMENT_AMOUNT then some .paymentAmountVar
  else if isFalsy env.REGISTRATION_EMAIL then some .registrationEmailVar
  else none

/-- Observable wallet state fields the script reads: the bech32 address and the
raw coin public key bytes (`state.address`, `state.coinPublicKey`). -/
structure WalletInfo where
  address : String
  coinPublicKey : List Nat
deriving DecidableEq

/-- One entry of the outputs array passed to `wallet.transferTransaction`
(`test-setup.ts` lines 140 to 146): amount, token type and recipient. -/
structure TransferOutput where
  amount : Int
  type : String
  receiverAddress : String
deriving DecidableEq

/-- Opaque transfer recipe produced by `wallet.transferTransaction`. -/
structure Recipe where
  recipeId : Nat
deriving DecidableEq

/-- Opaque proven transaction produced by `wallet.proveTransaction`. -/
structure ProvenTransaction where
  provenId : Nat
deriving DecidableEq

/-- Opaque identifier of the chain's native token, as returned by the external
ledger library's `nativeToken()`. -/
def nativeToken : String :=
  "native-token"

/-- External-call outcomes consumed by one `sendFunds` invocation: the initial
wallet-state read and the three wallet SDK operations, each of which may
reject.  `proveTransaction` and `submitTransaction` are functions of their
argument so the data flow recipe-to-proof-to-submission is preserved. -/
structure TransferWorld where
  stateRead : Except JsError WalletInfo
  transferTransaction : List TransferOutput → Except JsError Recipe
  proveTransaction : Recipe → Except JsError ProvenTransaction
  submitTransaction : ProvenTransaction → Except JsError String

/-- Trace events of one `sendFunds` invocation. -/
inductive SendEv where
  | readStateEv
  | buildRecipeEv (outs : List TransferOutput)
  | proveEv (r : Recipe)
  | submitEv (p : ProvenTransaction)
deriving DecidableEq

/-- `sendFunds` (`test-setup.ts` lines 129 to 161): read the sender state (for
logging), then inside a try block build a single-output transfer recipe for the
native token, prove it, and submit the proven transaction, returning the
submitted transaction id.  The catch handler logs and rethrows the same error,
so every failure surfaces unchanged; there is no retry.  The first component of
the result is the trace of attempted SDK operations. -/
def sendFunds (tw : TransferWorld) (toAddress : String) (amount : Int) :
    List SendEv × Except JsError String :=
  match tw.stateRead with
  | .error e => ([.readStateEv], .error e)
  | .ok _ =>
    match tw.transferTransaction [⟨amount, nativeToken, toAddress⟩] with
    | .error e =>
      ([.readStateEv, .buildRecipeEv [⟨amount, nativeToken, toAddress⟩]], .error e)
    | .ok transferRecipe =>
      match tw.proveTransaction transferRecipe with
      | .error e =>
        ([.readStateEv, .buildRecipeEv [⟨amount, nativeToken, toAddress⟩],
          .proveEv transferRecipe], .error e)
      | .ok provenTransaction =>
        match tw.submitTransaction provenTransaction with
        | .error e =>
          ([.readStateEv, .buildRecipeEv [⟨amount, nativeToken, toAddress⟩],
            .proveEv transferRecipe, .submitEv provenTransaction], .error e)
        | .ok txId =>
          ([.readStateEv, .buildRecipeEv [⟨amount, nativeToken, toAddress⟩],
            .proveEv transferRecipe, .submitEv provenTransaction], .ok txId)

/-- The scenario record returned by `runTestSetup` (`TestSetupResult`,
`test-setup.ts` lines 70 to 86).  The opaque deployed-contract handle is
represented by its contract address, which the interface also exposes
separately as `contractAddress`. -/
structure TestSetupResult where
  fundWalletSeed : String
  wallet1Seed : String
  wallet2Seed : String
  contractAddress : String
  wallet1PublicKey : String
  wallet2PublicKey : String
  destinationAddress : String
  fundWalletAddress : String
  wallet1Address : String
  wallet2Address : String
  fundingTxId1 : String
  fundingTxId2 : String
  paymentTxId1 : String
  paymentTxId2 : String
deriving DecidableEq

/-- Final result of a run: a normal return, a propagated exception, or a
`process.exit` with the given code. -/
inductive Outcome where
  | ok (r : TestSetupResult)
  | thrown (e : JsError)
  | exited (code : Nat)
deriving DecidableEq

/-- Run-level trace events, one per external interaction of `runTestSetup`. -/
inductive Ev where
  | validateEv
  | buildFundWalletEv
  | createWalletEv (n : Nat) (seed : String)
  | restoreWalletEv (seed : String)
  | sendFundsEv (toAddr : String) (amount : Int)
  | configureProvidersEv
  | deployEv
  | registerEv (email : String)
deriving DecidableEq

/-- External-call outcomes consumed by one `runTestSetup` invocation, in source
order.  Each `Except` field fixes the result of the corresponding awaited SDK
call; the `Bytes` fields fix the results of `randomBytes(32)` inside
`createNewWallet`; the four embedded `TransferWorld`s drive the four `sendFunds`
calls. -/
structure World where
  fundWalletBuild : Except JsError WalletInfo
  wallet1Bytes : List Nat
  wallet1Build : Except JsError WalletInfo
  wallet2Bytes : List Nat
  wallet2Build : Except JsError WalletInfo
  fundRestore : Except JsError WalletInfo
  send1 : TransferWorld
  send2 : TransferWorld
  wallet1RestoreDeploy : Except JsError WalletInfo
  configureProvidersRes : Except JsError Unit
  deployRes : Except JsError String
  registerRes : Except JsError Unit
  wallet1RestorePay : Except JsError WalletInfo
  pay1 : TransferWorld
  wallet2RestorePay : Except JsError WalletInfo
  pay2 : TransferWorld
  wallet2RestoreAfterFail : Except JsError WalletInfo

/-- `createNewWallet` (`test-setup.ts` lines 91 to 102): derive a fresh seed as
the lowercase hex of 32 random bytes, build the wallet and wait for sync, read
its state, and return the seed together with the observed wallet info (the
address comes from the state read at creation time). -/
def createNewWallet (bytes : List Nat) (build : Except JsError WalletInfo) :
    Except JsError (String × WalletInfo) :=
  match build with
  | .error e => .error e
  | .ok wi => .ok (toHex bytes, wi)

/-- Step 7 of `runTestSetup` (`test-setup.ts` lines 231 to 239): restore
wallet1 and send the payment amount to the destination; any failure of either
awaited call inside the try block is caught and replaced by the sentinel
`"manual-payment-required"`.  Returns the attempted events and the recorded
`paymentTxId1`. -/
def paymentAttempt1 (w : World) (seed1 dest : String) (amt : Int) : List Ev × String :=
  match w.wallet1RestorePay with
  | .error _ => ([.restoreWalletEv seed1], "manual-payment-required")
  | .ok _ =>
    match (sendFunds w.pay1 dest amt).2 with
    | .error _ =>
      ([.restoreWalletEv seed1, .sendFundsEv dest amt], "manual-payment-required")
    | .ok tx => ([.restoreWalletEv seed1, .sendFundsEv dest amt], tx)

/-- Step 8 of `runTestSetup` (`test-setup.ts` lines 242 to 253): restore
wallet2 and send the payment amount to the destination; on failure the catch
handler records the sentinel and restores wallet2 once more to obtain its
public key — and that second restoration is NOT itself guarded, so its failure
escapes as an error.  Returns the attempted events and, on the non-escaping
paths, the recorded `paymentTxId2` together with the wallet2 state used for the
final public-key read. -/
def paymentAttempt2 (w : World) (seed2 dest : String) (amt : Int) :
    List Ev × Except JsError (String × WalletInfo) :=
  match w.wallet2RestorePay with
  | .error _ =>
    match w.wallet2RestoreAfterFail with
    | .error e => ([.restoreWalletEv seed2, .restoreWalletEv seed2], .error e)
    | .ok wi =>
      ([.restoreWalletEv seed2, .restoreWalletEv seed2],
       .ok ("manual-payment-required", wi))
  | .ok wi =>
    match (sendFunds w.pay2 dest amt).2 with
    | .error _ =>
      match w.wallet2RestoreAfterFail with
      | .error e =>
        ([.restoreWalletEv seed2, .sendFundsEv dest amt, .restoreWalletEv seed2], .error e)
      | .ok wi2 =>
        ([.restoreWalletEv seed2, .sendFundsEv dest amt, .restoreWalletEv seed2],
         .ok ("manual-payment-required", wi2))
    | .ok tx => ([.restoreWalletEv seed2, .sendFundsEv dest amt], .ok (tx, wi))

/-- `runTestSetup` (`test-setup.ts` lines 166 to 301): validate the
environment, then inside a try block build the fund wallet, create wallet1 and
wallet2, distribute funds (restore fund wallet, send to wallet1 then wallet2;
a failure there calls `process.exit(1)`), restore wallet1, configure providers,
deploy the contract, register wallet1, attempt the two payments with sentinel
fallbacks, and assemble the scenario record.  The outer catch handler logs and
rethrows, so every uncaught error propagates unchanged.  The first component is
the trace of attempted external steps. -/
def runTestSetup (env : Env) (w : World) : List Ev × Outcome :=
  match validateEnvironmentVariables env with
  | .error e => ([.validateEv], .thrown e)
  | .ok venv =>
    match w.fundWalletBuild with
    | .error e => ([.validateEv, .buildFundWalletEv], .thrown e)
    | .ok fundInfo =>
      match createNewWallet w.wallet1Bytes w.wallet1Build with
      | .error e =>
        ([.validateEv, .buildFundWalletEv, .createWalletEv 1 (toHex w.wallet1Bytes)],
         .thrown e)
      | .ok (seed1, w1info) =>
        match createNewWallet w.wallet2Bytes w.wallet2Build with
        | .error e =>
          ([.validateEv, .buildFundWalletEv, .createWalletEv 1 seed1,
            .createWalletEv 2 (toHex w.wallet2Bytes)], .thrown e)
        | .ok (seed2, w2info) =>
          match w.fundRestore with
          | .error _ =>
            ([.validateEv, .buildFundWalletEv, .createWalletEv 1 seed1,
              .createWalletEv 2 seed2, .restoreWalletEv venv.FUND_WALLET_SEED],
             .exited 1)
          | .ok _ =>
            match (sendFunds w.send1 w1info.address venv.FUNDING_AMOUNT).2 with
            | .error _ =>
              ([.validateEv, .buildFundWalletEv, .createWalletEv 1 seed1,
                .createWalletEv 2 seed2, .restoreWalletEv venv.FUND_WALLET_SEED,
                .sendFundsEv w1info.address venv.FUNDING_AMOUNT], .exited 1)
            | .ok fundingTxId1 =>
              match (sendFunds w.send2 w2info.address venv.FUNDING_AMOUNT).2 with
              | .error _ =>
                ([.validateEv, .buildFundWalletEv, .createWalletEv 1 seed1,
                  .createWalletEv 2 seed2, .restoreWalletEv venv.FUND_WALLET_SEED,
                  .sendFundsEv w1info.address venv.FUNDING_AMOUNT,
                  .sendFundsEv w2info.address venv.FUNDING_AMOUNT], .exited 1)
              | .ok fundingTxId2 =>
                match w.wallet1RestoreDeploy with
                | .error e =>
                  ([.validateEv, .buildFundWalletEv, .createWalletEv 1 seed1,
                    .createWalletEv 2 seed2, .restoreWalletEv venv.FUND_WALLET_SEED,
                    .sendFundsEv w1info.address venv.FUNDING_AMOUNT,
                    .sendFundsEv w2info.address venv.FUNDING_AMOUNT,
                    .restoreWalletEv seed1], .thrown e)
                | .ok w1r =>
                  match w.configureProvidersRes with
                  | .error e =>
                    ([.validateEv, .buildFundWalletEv, .createWalletEv 1 seed1,
                      .createWalletEv 2 seed2, .restoreWalletEv venv.FUND_WALLET_SEED,
                      .sendFundsEv w1info.address venv.FUNDING_AMOUNT,
                      .sendFundsEv w2info.address venv.FUNDING_AMOUNT,
                      .restoreWalletEv seed1, .configureProvidersEv], .thrown e)
                  | .ok _ =>
                    match w.deployRes with
                    | .error e =>
                      ([.validateEv, .buildFundWalletEv, .createWalletEv 1 seed1,
                        .createWalletEv 2 seed2, .restoreWalletEv venv.FUND_WALLET_SEED,
                        .sendFundsEv w1info.address venv.FUNDING_AMOUNT,
                        .sendFundsEv w2info.address venv.FUNDING_AMOUNT,
                        .restoreWalletEv seed1, .configureProvidersEv, .deployEv],
                       .thrown e)
                    | .ok contractAddress =>
                      match w.registerRes with
                      | .error e =>
                        ([.validateEv, .buildFundWalletEv, .createWalletEv 1 seed1,
                          .createWalletEv 2 seed2, .restoreWalletEv venv.FUND_WALLET_SEED,
                          .sendFundsEv w1info.address venv.FUNDING_AMOUNT,
                          .sendFundsEv w2info.address venv.FUNDING_AMOUNT,
                          .restoreWalletEv seed1, .configureProvidersEv, .deployEv,
                          .registerEv venv.REGISTRATION_EMAIL], .thrown e)
                      | .ok _ =>
                        let p1 := paymentAttempt1 w seed1 venv.DESTINATION_ADDRESS
                          venv.PAYMENT_AMOUNT
                        let p2 := paymentAttempt2 w seed2 venv.DESTINATION_ADDRESS
                          venv.PAYMENT_AMOUNT
                        let tr := [Ev.validateEv, Ev.buildFundWalletEv,
                          Ev.createWalletEv 1 seed1, Ev.createWalletEv 2 seed2,
                          Ev.restoreWalletEv venv.FUND_WALLET_SEED,
                          Ev.sendFundsEv w1info.address venv.FUNDING_AMOUNT,
                          Ev.sendFundsEv w2info.address venv.FUNDING_AMOUNT,
                          Ev.restoreWalletEv seed1, Ev.configureProvidersEv,
                          Ev.deployEv, Ev.registerEv venv.REGISTRATION_EMAIL] ++
                          p1.1 ++ p2.1
                        match p2.2 with
                        | .error e => (tr, .thrown e)
                        | .ok (paymentTxId2, w2state) =>
                          (tr, .ok {
                            fundWalletSeed := venv.FUND_WALLET_SEED,
                            wallet1Seed := seed1,
                            wallet2Seed := seed2,
                            contractAddress := contractAddress,
                            wallet1PublicKey := toHex w1r.coinPublicKey,
                            wallet2PublicKey := toHex w2state.coinPublicKey,
                            destinationAddress := venv.DESTINATION_ADDRESS,
                            fundWalletAddress := fundInfo.address,
                            wallet1Address := w1info.address,
                            wallet2Address := w2info.address,
                            fundingTxId1 := fundingTxId1,
                            fundingTxId2 := fundingTxId2,
                            paymentTxId1 := p1.2,
                            paymentTxId2 := paymentTxId2 })

section Lemmas

lemma toHex_length (bytes : List Nat) : (toHex bytes).length = 2 * bytes.length := by
  induction bytes with
  | nil => rfl
  | cons b bs ih =>
    simp only [toHex, String.length] at ih ⊢
    simp only [List.map_cons, List.flatten_cons, List.length_append, List.length_cons,
      byteToHex, List.length_nil]
    omega

lemma isLowerHexDigit_hexDigitChar (n : Nat) (h : n < 16) :
    isLowerHexDigit (hexDigitChar n) = true := by
  interval_cases n <;> decide

lemma toHex_all_hex (bytes : List Nat) :
    (toHex bytes).data.all isLowerHexDigit = true := by
  induction bytes with
  | nil => rfl
  | cons b bs ih =>
    simp only [toHex, List.map_cons, List.flatten_cons] at ih ⊢
    have h1 := isLowerHexDigit_hexDigitChar (b / 16 % 16) (Nat.mod_lt _ (by norm_num))
    have h2 := isLowerHexDigit_hexDigitChar (b % 16) (Nat.mod_lt _ (by norm_num))
    rw [List.all_append]
    simp [byteToHex, h1, h2, ih]

lemma digitsVal_go (val : Char → Nat) (ds : List Char) :
    ∀ a : Nat, ds.foldl (fun acc c => 10 * acc + val c) a =
      a * 10 ^ ds.length + Nat.ofDigits 10 ((ds.map val).reverse) := by
  induction ds with
  | nil => intro a; simp
  | cons c ds ih =>
    intro a
    simp only [List.foldl_cons, List.map_cons, List.reverse_cons, List.length_cons]
    rw [ih, Nat.ofDigits_append]
    simp only [Nat.ofDigits_singleton, List.length_reverse, List.length_map]
    ring

lemma digitsVal_eq_ofDigits (ds : List Char) :
    digitsVal 10 decDigitVal ds = Nat.ofDigits 10 ((ds.map decDigitVal).reverse) := by
  have h := digitsVal_go decDigitVal ds 0
  simpa [digitsVal] using h

lemma isDecDigit_not_ws (c : Char) (h : isDecDigit c = true) :
    isJsWhitespace c = false := by
  simp only [isDecDigit, Bool.and_eq_true, decide_eq_true_eq] at h
  simp only [isJsWhitespace, Bool.or_eq_false_iff, decide_eq_false_iff_not]
  omega

end Lemmas

lemma isDecDigit_ne_special (c : Char) (h : isDecDigit c = true) :
    c ≠ '+' ∧ c ≠ '-' ∧ c ≠ 'x' ∧ c ≠ 'X' ∧ c ≠ 'o' ∧ c ≠ 'O' ∧ c ≠ 'b' ∧ c ≠ 'B' := by
  refine ⟨?_, ?_, ?_, ?_, ?_, ?_, ?_, ?_⟩ <;> (rintro rfl; revert h; decide)

lemma trimJsWhitespace_eq_self (cs : List Char)
    (hhead : ∀ c, cs.head? = some c → isJsWhitespace c = false)
    (hlast : ∀ c, cs.getLast? = some c → isJsWhitespace c = false) :
    trimJsWhitespace cs = cs := by
  unfold trimJsWhitespace
  have h1 : cs.dropWhile isJsWhitespace = cs := by
    cases cs with
    | nil => rfl
    | cons a l =>
      rw [List.dropWhile_cons]
      simp [hhead a rfl]
  rw [h1]
  have h2 : cs.reverse.dropWhile isJsWhitespace = cs.reverse := by
    cases hr : cs.reverse with
    | nil => rfl
    | cons a l =>
      rw [List.dropWhile_cons]
      have ha : cs.getLast? = some a := by
        rw [← List.head?_reverse, hr]
        rfl
      simp [hlast a ha]
  rw [h2, List.reverse_reverse]

lemma parseDigits_dec (ds : List Char) (h1 : ds ≠ []) (h2 : ds.all isDecDigit = true) :
    parseDigits 10 isDecDigit decDigitVal ds =
      some (Nat.ofDigits 10 ((ds.map decDigitVal).reverse)) := by
  simp [parseDigits, h1, h2, digitsVal_eq_ofDigits]

lemma stringToBigInt_decimal (sg : Bool) (ds : List Char)
    (h1 : ds ≠ []) (h2 : ds.all isDecDigit = true) :
    stringToBigInt (String.mk ((if sg then ['-'] else []) ++ ds)) =
      some (if sg then -(Nat.ofDigits 10 ((ds.map decDigitVal).reverse) : Int)
            else (Nat.ofDigits 10 ((ds.map decDigitVal).reverse) : Int)) := by
  have hdig : ∀ c ∈ ds, isDecDigit c = true := List.all_eq_true.mp h2
  have htrim : trimJsWhitespace ((if sg then ['-'] else []) ++ ds)
      = (if sg then ['-'] else []) ++ ds := by
    apply trimJsWhitespace_eq_self
    · intro c hc
      cases sg with
      | true =>
        simp only [if_true, List.cons_append, List.head?_cons, Option.some.injEq] at hc
        subst hc
        decide
      | false =>
        simp at hc
        cases ds with
        | nil => simp at hc
        | cons d l =>
          simp only [List.head?_cons, Option.some.injEq] at hc
          subst hc
          exact isDecDigit_not_ws _ (hdig _ (List.mem_cons_self _ _))
    · intro c hc
      rw [List.getLast?_append_of_ne_nil _ h1,
        List.getLast?_eq_getLast_of_ne_nil h1, Option.some.injEq] at hc
      subst hc
      exact isDecDigit_not_ws _ (hdig _ (List.getLast_mem h1))
  unfold stringToBigInt
  have hdata : (String.mk ((if sg then ['-'] else []) ++ ds)).data
      = (if sg then ['-'] else []) ++ ds := rfl
  rw [hdata, htrim]
  cases sg with
  | true =>
    simp only [if_true, List.cons_append, List.nil_append, parseTrimmed]
    rw [parseDigits_dec ds h1 h2]
    simp
    norm_cast
  | false =>
    simp only [Bool.false_eq_true, if_false, List.nil_append]
    cases ds with
    | nil => exact absurd rfl h1
    | cons d rest =>
      have hd := isDecDigit_ne_special d (hdig d (List.mem_cons_self d rest))
      have hrest : ∀ ch, rest.head? = some ch → isDecDigit ch = true := by
        intro ch hch
        cases rest with
        | nil => simp at hch
        | cons a l =>
          simp only [List.head?_cons, Option.some.injEq] at hch
          subst hch
          exact hdig _ (by simp)
      simp only [parseTrimmed]
      rw [if_neg hd.1, if_neg hd.2.1]
      rw [if_neg (by rintro ⟨-, h | h⟩ <;> exact absurd (hrest _ h) (by decide))]
      rw [if_neg (by rintro ⟨-, h | h⟩ <;> exact absurd (hrest _ h) (by decide))]
      rw [if_neg (by rintro ⟨-, h | h⟩ <;> exact absurd (hrest _ h) (by decide))]
      rw [parseDigits_dec (d :: rest) (by simp) h2]
      simp
      norm_cast

lemma validate_of_firstMissing (env : Env) (v : EnvVar) (h : firstMissing env = some v) :
    validateEnvironmentVariables env = .error (.error (varName v ++ " is required")) ∧
    isFalsy (getVar env v) = true := by
  unfold firstMissing at h
  unfold validateEnvironmentVariables
  by_cases h1 : isFalsy env.FUND_WALLET_SEED
  · rw [if_pos h1] at h
    cases h
    simp [h1, varName, getVar]
  · rw [if_neg h1] at h
    by_cases h2 : isFalsy env.DESTINATION_ADDRESS
    · rw [if_pos h2] at h
      cases h
      simp [h1, h2, varName, getVar]
    · rw [if_neg h2] at h
      by_cases h3 : isFalsy env.FUNDING_AMOUNT
      · rw [if_pos h3] at h
        cases h
        simp [h1, h2, h3, varName, getVar]
      · rw [if_neg h3] at h
        by_cases h4 : isFalsy env.PAYMENT_AMOUNT
        · rw [if_pos h4] at h
          cases h
          simp [h1, h2, h3, h4, varName, getVar]
        · rw [if_neg h4] at h
          by_cases h5 : isFalsy env.REGISTRATION_EMAIL
          · rw [if_pos h5] at h
            cases h
            simp [h1, h2, h3, h4, h5, varName, getVar]
          · rw [if_neg h5] at h
            cases h

lemma firstMissing_of_only (env : Env) (v : EnvVar)
    (h : isFalsy (getVar env v) = true)
    (hothers : ∀ u, u ≠ v → isFalsy (getVar env u) = false) :
    firstMissing env = some v := by
  cases v with
  | fundWalletSeedVar =>
    simp only [getVar] at h
    simp [firstMissing, h]
  | destinationAddressVar =>
    have o1 := hothers .fundWalletSeedVar (by decide)
    simp only [getVar] at h o1
    simp [firstMissing, h, o1]
  | fundingAmountVar =>
    have o1 := hothers .fundWalletSeedVar (by decide)
    have o2 := hothers .destinationAddressVar (by decide)
    simp only [getVar] at h o1 o2
    simp [firstMissing, h, o1, o2]
  | paymentAmountVar =>
    have o1 := hothers .fundWalletSeedVar (by decide)
    have o2 := hothers .destinationAddressVar (by decide)
    have o3 := hothers .fundingAmountVar (by decide)
    simp only [getVar] at h o1 o2 o3
    simp [firstMissing, h, o1, o2, o3]
  | registrationEmailVar =>
    have o1 := hothers .fundWalletSeedVar (by decide)
    have o2 := hothers .destinationAddressVar (by decide)
    have o3 := hothers .fundingAmountVar (by decide)
    have o4 := hothers .paymentAmountVar (by decide)
    simp only [getVar] at h o1 o2 o3 o4
    simp [firstMissing, h, o1, o2, o3, o4]

lemma firstMissing_isSome_of_falsy (env : Env) (v : EnvVar)
    (h : isFalsy (getVar env v) = true) : ∃ u, firstMissing env = some u := by
  unfold firstMissing
  by_cases h1 : isFalsy env.FUND_WALLET_SEED
  · exact ⟨EnvVar.fundWalletSeedVar, by simp [h1]⟩
  · by_cases h2 : isFalsy env.DESTINATION_ADDRESS
    · exact ⟨EnvVar.destinationAddressVar, by simp [h1, h2]⟩
    · by_cases h3 : isFalsy env.FUNDING_AMOUNT
      · exact ⟨EnvVar.fundingAmountVar, by simp [h1, h2, h3]⟩
      · by_cases h4 : isFalsy env.PAYMENT_AMOUNT
        · exact ⟨EnvVar.paymentAmountVar, by simp [h1, h2, h3, h4]⟩
        · by_cases h5 : isFalsy env.REGISTRATION_EMAIL
          · exact ⟨EnvVar.registrationEmailVar, by simp [h1, h2, h3, h4, h5]⟩
          · exfalso
            cases v <;> simp only [getVar] at h <;>
              [exact absurd h (by simp [h1]);
               exact absurd h (by simp [h2]);
               exact absurd h (by simp [h3]);
               exact absurd h (by simp [h4]);
               exact absurd h (by simp [h5])]

lemma getVar_setVar_same (env : Env) (v : EnvVar) (s : Option String) :
    getVar (setVar env v s) v = s := by
  cases v <;> rfl

lemma getVar_setVar_ne (env : Env) (v u : EnvVar) (s : Option String) (h : u ≠ v) :
    getVar (setVar env v s) u = getVar env u := by
  cases u <;> cases v <;> first | rfl | exact absurd rfl h

/-- Fixture: an environment with all five variables set and non-empty. -/
def envAllSet : Env :=
  ⟨some "fund-seed", some "dest-addr", some "5", some "7", some "test@example.com"⟩

/-- Fixture: a transfer world in which every SDK call succeeds. -/
def twAllOk : TransferWorld :=
  ⟨.ok ⟨"sender-addr", [1]⟩, fun _ => .ok ⟨1⟩, fun _ => .ok ⟨2⟩, fun _ => .ok "tx"⟩

/-- Fixture: a world in which every external call succeeds. -/
def worldAllOk : World where
  fundWalletBuild := .ok ⟨"fund-addr", [9]⟩
  wallet1Bytes := [171]
  wallet1Build := .ok ⟨"w1-addr", [1, 2]⟩
  wallet2Bytes := [205]
  wallet2Build := .ok ⟨"w2-addr", [3, 4]⟩
  fundRestore := .ok ⟨"fund-addr", [9]⟩
  send1 := { twAllOk with submitTransaction := fun _ => .ok "ftx1" }
  send2 := { twAllOk with submitTransaction := fun _ => .ok "ftx2" }
  wallet1RestoreDeploy := .ok ⟨"w1-addr", [1, 2]⟩
  configureProvidersRes := .ok ()
  deployRes := .ok "contract-addr"
  registerRes := .ok ()
  wallet1RestorePay := .ok ⟨"w1-addr", [1, 2]⟩
  pay1 := { twAllOk with submitTransaction := fun _ => .ok "ptx1" }
  wallet2RestorePay := .ok ⟨"w2-addr", [3, 4]⟩
  pay2 := { twAllOk with submitTransaction := fun _ => .ok "ptx2" }
  wallet2RestoreAfterFail := .ok ⟨"w2-addr", [3, 4]⟩

/-- C2: if any of the five required environment variables is unset, the run
throws a descriptive `NAME is required` error naming a genuinely missing
variable — and exactly the omitted variable when it is the only missing one —
with validation as the only attempted step, so the failure happens before any
wallet is created. -/
theorem claim_C2_missing_env_fails_before_wallets (env : Env) (w : World) (v : EnvVar)
    (h : isFalsy (getVar env v) = true) :
    (∃ u, isFalsy (getVar env u) = true ∧
      runTestSetup env w =
        ([Ev.validateEv], Outcome.thrown (JsError.error (varName u ++ " is required")))) ∧
    ((∀ u, u ≠ v → isFalsy (getVar env u) = false) →
      runTestSetup env w =
        ([Ev.validateEv], Outcome.thrown (JsError.error (varName v ++ " is required")))) := by
  constructor
  · obtain ⟨u, hu⟩ := firstMissing_isSome_of_falsy env v h
    obtain ⟨hval, hfal⟩ := validate_of_firstMissing env u hu
    exact ⟨u, hfal, by simp [runTestSetup, hval]⟩
  · intro hothers
    obtain ⟨hval, -⟩ :=
      validate_of_firstMissing env v (firstMissing_of_only env v h hothers)
    simp [runTestSetup, hval]

/-- Witness for C2 at a concrete input: only DESTINATION_ADDRESS is missing. -/
theorem claim_C2_missing_env_fails_before_wallets_witness :
    isFalsy (getVar ⟨some "fund-seed", none, some "5", some "7", some "e@x"⟩
      EnvVar.destinationAddressVar) = true ∧
    runTestSetup ⟨some "fund-seed", none, some "5", some "7", some "e@x"⟩ worldAllOk =
      ([Ev.validateEv],
       Outcome.thrown (JsError.error (varName EnvVar.destinationAddressVar ++ " is required"))) :=
  ⟨by decide,
   (claim_C2_missing_env_fails_before_wallets _ worldAllOk .destinationAddressVar
       (by decide)).2
     (by intro u hu; cases u <;> simp_all <;> rfl)⟩

/-- C8: setting a required variable to the empty string is treated exactly like
leaving it unset: validation returns the same result for both environments,
and (when every other variable is present) that result is the same
`NAME is required` error an absent variable produces. -/
theorem claim_C8_empty_string_like_unset (env : Env) (v : EnvVar)
    (hothers : ∀ u, u ≠ v → isFalsy (getVar env u) = false) :
    validateEnvironmentVariables (setVar env v (some "")) =
      validateEnvironmentVariables (setVar env v none) ∧
    validateEnvironmentVariables (setVar env v (some "")) =
      .error (.error (varName v ++ " is required")) := by
  have hothersE : ∀ s u, u ≠ v → isFalsy (getVar (setVar env v s) u) = false := by
    intro s u hu
    rw [getVar_setVar_ne env v u s hu]
    exact hothers u hu
  have hE : ∀ s, isFalsy s = true →
      validateEnvironmentVariables (setVar env v s) =
        .error (.error (varName v ++ " is required")) := by
    intro s hs
    have hfalsy : isFalsy (getVar (setVar env v s) v) = true := by
      rwa [getVar_setVar_same]
    exact (validate_of_firstMissing _ v
      (firstMissing_of_only _ v hfalsy (hothersE s))).1
  have h1 := hE (some "") (by decide)
  have h2 := hE none rfl
  exact ⟨h1.trans h2.symm, h1⟩

/-- Witness for C8 at a concrete input: FUNDING_AMOUNT set to the empty string
behaves exactly like an absent FUNDING_AMOUNT. -/
theorem claim_C8_empty_string_like_unset_witness :
    validateEnvironmentVariables (setVar envAllSet EnvVar.fundingAmountVar (some "")) =
      validateEnvironmentVariables (setVar envAllSet EnvVar.fundingAmountVar none) ∧
    validateEnvironmentVariables (setVar envAllSet EnvVar.fundingAmountVar (some "")) =
      .error (.error (varName EnvVar.fundingAmountVar ++ " is required")) :=
  claim_C8_empty_string_like_unset envAllSet .fundingAmountVar
    (by intro u hu; cases u <;> simp_all <;> rfl)

/-- C10: if every variable passes the truthiness check but FUNDING_AMOUNT or
PAYMENT_AMOUNT does not parse as a BigInt, the run throws the conversion error
during validation — the two offending strings are necessarily non-empty, the
trace contains only the validation step, and no wallet creation or network
operation is attempted. -/
theorem claim_C10_bad_amount_fails_during_validation (env : Env) (w : World)
    (s1 s2 : String)
    (hall : ∀ u, isFalsy (getVar env u) = false)
    (hfa : env.FUNDING_AMOUNT = some s1) (hpa : env.PAYMENT_AMOUNT = some s2)
    (hbad : stringToBigInt s1 = none ∨ stringToBigInt s2 = none) :
    s1 ≠ "" ∧ s2 ≠ "" ∧
    ∃ msg, runTestSetup env w =
      ([Ev.validateEv], Outcome.thrown (JsError.bigIntConvError msg)) := by
  have o1 := hall EnvVar.fundWalletSeedVar
  have o2 := hall EnvVar.destinationAddressVar
  have o3 := hall EnvVar.fundingAmountVar
  have o4 := hall EnvVar.paymentAmountVar
  have o5 := hall EnvVar.registrationEmailVar
  simp only [getVar] at o1 o2 o3 o4 o5
  have hs1 : s1 ≠ "" := by
    rw [hfa] at o3
    simpa [isFalsy] using o3
  have hs2 : s2 ≠ "" := by
    rw [hpa] at o4
    simpa [isFalsy] using o4
  have o3s : isFalsy (some s1) = false := by rw [hfa] at o3; exact o3
  have o4s : isFalsy (some s2) = false := by rw [hpa] at o4; exact o4
  refine ⟨hs1, hs2, ?_⟩
  rcases h1 : stringToBigInt s1 with _ | n1
  · exact ⟨"Cannot convert " ++ s1 ++ " to a BigInt",
      by simp [runTestSetup, validateEnvironmentVariables, o1, o2, o3, o4, o5,
        o3s, o4s, hfa, hpa, h1]⟩
  · have h2 : stringToBigInt s2 = none := by
      rcases hbad with hb | hb
      · rw [h1] at hb; cases hb
      · exact hb
    exact ⟨"Cannot convert " ++ s2 ++ " to a BigInt",
      by simp [runTestSetup, validateEnvironmentVariables, o1, o2, o3, o4, o5,
        o3s, o4s, hfa, hpa, h1, h2]⟩

/-- Witness for C10 at a concrete input: FUNDING_AMOUNT set to "abc". -/
theorem claim_C10_bad_amount_fails_during_validation_witness :
    stringToBigInt "abc" = none ∧
    ∃ msg, runTestSetup ⟨some "fund-seed", some "dest-addr", some "abc", some "7",
        some "e@x"⟩ worldAllOk =
      ([Ev.validateEv], Outcome.thrown (JsError.bigIntConvError msg)) :=
  ⟨by decide,
   (claim_C10_bad_amount_fails_during_validation _ worldAllOk "abc" "7"
      (by intro u; cases u <;> decide) rfl rfl (Or.inl (by decide))).2.2⟩

lemma decString_ne_empty (sg : Bool) (ds : List Char) (h : ds ≠ []) :
    (String.mk ((if sg then ['-'] else []) ++ ds)) ≠ "" := by
  intro hc
  have hd := congrArg String.data hc
  simp only [String.data] at hd
  rcases List.append_eq_nil.mp hd with ⟨-, h2⟩
  exact h h2

/-- C7: FUNDING_AMOUNT and PAYMENT_AMOUNT are parsed by the JavaScript
`BigInt` conversion as arbitrary-precision integers: for every decimal integer
string (an optional minus sign followed by a non-empty digit string, of any
length), validation succeeds and stores exactly the mathematical integer the
string denotes, with no truncation or rounding. -/
theorem claim_C7_amounts_parsed_arbitrary_precision (env : Env)
    (fs dst em : String) (sg1 sg2 : Bool) (ds1 ds2 : List Char)
    (h1 : env.FUND_WALLET_SEED = some fs) (h1e : fs ≠ "")
    (h2 : env.DESTINATION_ADDRESS = some dst) (h2e : dst ≠ "")
    (h3 : env.FUNDING_AMOUNT = some (String.mk ((if sg1 then ['-'] else []) ++ ds1)))
    (h4 : env.PAYMENT_AMOUNT = some (String.mk ((if sg2 then ['-'] else []) ++ ds2)))
    (h5 : env.REGISTRATION_EMAIL = some em) (h5e : em ≠ "")
    (hd1 : ds1 ≠ []) (hd1d : ds1.all isDecDigit = true)
    (hd2 : ds2 ≠ []) (hd2d : ds2.all isDecDigit = true) :
    validateEnvironmentVariables env = Except.ok {
      FUND_WALLET_SEED := fs,
      DESTINATION_ADDRESS := dst,
      FUNDING_AMOUNT := if sg1 then -(Nat.ofDigits 10 ((ds1.map decDigitVal).reverse) : Int)
        else (Nat.ofDigits 10 ((ds1.map decDigitVal).reverse) : Int),
      PAYMENT_AMOUNT := if sg2 then -(Nat.ofDigits 10 ((ds2.map decDigitVal).reverse) : Int)
        else (Nat.ofDigits 10 ((ds2.map decDigitVal).reverse) : Int),
      REGISTRATION_EMAIL := em } := by
  have f1 : isFalsy env.FUND_WALLET_SEED = false := by
    rw [h1]; simpa [isFalsy] using h1e
  have f2 : isFalsy env.DESTINATION_ADDRESS = false := by
    rw [h2]; simpa [isFalsy] using h2e
  have f3 : isFalsy env.FUNDING_AMOUNT = false := by
    rw [h3]; simpa [isFalsy] using decString_ne_empty sg1 ds1 hd1
  have f4 : isFalsy env.PAYMENT_AMOUNT = false := by
    rw [h4]; simpa [isFalsy] using decString_ne_empty sg2 ds2 hd2
  have f5 : isFalsy env.REGISTRATION_EMAIL = false := by
    rw [h5]; simpa [isFalsy] using h5e
  have g1 : isFalsy (some fs) = false := by simpa [isFalsy] using h1e
  have g2 : isFalsy (some dst) = false := by simpa [isFalsy] using h2e
  have g3 : isFalsy (some (String.mk ((if sg1 then ['-'] else []) ++ ds1))) = false := by
    simpa [isFalsy] using decString_ne_empty sg1 ds1 hd1
  have g4 : isFalsy (some (String.mk ((if sg2 then ['-'] else []) ++ ds2))) = false := by
    simpa [isFalsy] using decString_ne_empty sg2 ds2 hd2
  have g5 : isFalsy (some em) = false := by simpa [isFalsy] using h5e
  simp [validateEnvironmentVariables, f1, f2, f3, f4, f5, g1, g2, g3, g4, g5,
    h1, h2, h3, h4, h5,
    stringToBigInt_decimal sg1 ds1 hd1 hd1d, stringToBigInt_decimal sg2 ds2 hd2 hd2d]

/-- Fixture: thirty decimal digit characters, denoting a value far beyond the
64-bit range. -/
def bigDigits : List Char :=
  ['1', '2', '3', '4', '5', '6', '7', '8', '9', '0',
   '1', '2', '3', '4', '5', '6', '7', '8', '9', '0',
   '1', '2', '3', '4', '5', '6', '7', '8', '9', '0']

/-- Fixture: the decimal string formed from `bigDigits`. -/
def bigAmountStr : String :=
  String.mk bigDigits

/-- Fixture: an environment whose FUNDING_AMOUNT exceeds the 64-bit range. -/
def envBigAmount : Env :=
  ⟨some "fund-seed", some "dest-addr", some bigAmountStr, some "7", some "test@example.com"⟩

/-- Witness for C7 at a concrete input: a 30-digit FUNDING_AMOUNT is parsed
exactly, and its value exceeds 2 to the 64th power. -/
theorem claim_C7_amounts_parsed_arbitrary_precision_witness :
    bigDigits.all isDecDigit = true ∧
    (2 : Int) ^ 64 < (Nat.ofDigits 10 ((bigDigits.map decDigitVal).reverse) : Int) ∧
    validateEnvironmentVariables envBigAmount = Except.ok {
      FUND_WALLET_SEED := "fund-seed",
      DESTINATION_ADDRESS := "dest-addr",
      FUNDING_AMOUNT := if false then -(Nat.ofDigits 10 ((bigDigits.map decDigitVal).reverse) : Int)
        else (Nat.ofDigits 10 ((bigDigits.map decDigitVal).reverse) : Int),
      PAYMENT_AMOUNT := if false then -(Nat.ofDigits 10 ((['7'].map decDigitVal).reverse) : Int)
        else (Nat.ofDigits 10 ((['7'].map decDigitVal).reverse) : Int),
      REGISTRATION_EMAIL := "test@example.com" } :=
  ⟨by decide, by decide,
   claim_C7_amounts_parsed_arbitrary_precision envBigAmount
     "fund-seed" "dest-addr" "test@example.com" false false bigDigits ['7']
     rfl (by decide) rfl (by decide) rfl rfl rfl (by decide)
     (by decide) (by decide) (by decide) (by decide)⟩

/-- C6: every `sendFunds` call performs exactly three transfer steps in order —
build the single-output native-token transfer recipe, prove that recipe, submit
that proven transaction — returning the transaction id produced by submission;
a failure at any step aborts the call with the underlying error surfaced
unchanged, the trace stopping at the failing step, so there is no retry and no
re-submission. -/
theorem claim_C6_sendFunds_build_prove_submit (tw : TransferWorld)
    (toAddress : String) (amount : Int) (st : WalletInfo)
    (hst : tw.stateRead = .ok st) :
    (∀ e, tw.transferTransaction [⟨amount, nativeToken, toAddress⟩] = .error e →
      sendFunds tw toAddress amount =
        ([.readStateEv, .buildRecipeEv [⟨amount, nativeToken, toAddress⟩]], .error e)) ∧
    (∀ rec e, tw.transferTransaction [⟨amount, nativeToken, toAddress⟩] = .ok rec →
      tw.proveTransaction rec = .error e →
      sendFunds tw toAddress amount =
        ([.readStateEv, .buildRecipeEv [⟨amount, nativeToken, toAddress⟩],
          .proveEv rec], .error e)) ∧
    (∀ rec pv e, tw.transferTransaction [⟨amount, nativeToken, toAddress⟩] = .ok rec →
      tw.proveTransaction rec = .ok pv →
      tw.submitTransaction pv = .error e →
      sendFunds tw toAddress amount =
        ([.readStateEv, .buildRecipeEv [⟨amount, nativeToken, toAddress⟩],
          .proveEv rec, .submitEv pv], .error e)) ∧
    (∀ rec pv tx, tw.transferTransaction [⟨amount, nativeToken, toAddress⟩] = .ok rec →
      tw.proveTransaction rec = .ok pv →
      tw.submitTransaction pv = .ok tx →
      sendFunds tw toAddress amount =
        ([.readStateEv, .buildRecipeEv [⟨amount, nativeToken, toAddress⟩],
          .proveEv rec, .submitEv pv], .ok tx)) := by
  refine ⟨?_, ?_, ?_, ?_⟩ <;> intros <;> simp [sendFunds, hst, *]

/-- Witness for C6 at a concrete input: the all-success transfer world. -/
theorem claim_C6_sendFunds_build_prove_submit_witness :
    twAllOk.stateRead = .ok ⟨"sender-addr", [1]⟩ ∧
    sendFunds twAllOk "dest-addr" 7 =
      ([.readStateEv, .buildRecipeEv [⟨7, nativeToken, "dest-addr"⟩],
        .proveEv ⟨1⟩, .submitEv ⟨2⟩], .ok "tx") :=
  ⟨rfl,
   (claim_C6_sendFunds_build_prove_submit twAllOk "dest-addr" 7 ⟨"sender-addr", [1]⟩
       rfl).2.2.2 ⟨1⟩ ⟨2⟩ "tx" rfl rfl rfl⟩

lemma paymentAttempt1_sentinel_or_tx (w : World) (seed1 dest : String) (amt : Int) :
    (paymentAttempt1 w seed1 dest amt).2 = "manual-payment-required" ∨
    (sendFunds w.pay1 dest amt).2 = .ok (paymentAttempt1 w seed1 dest amt).2 := by
  unfold paymentAttempt1
  rcases w.wallet1RestorePay with e | wi
  · exact Or.inl rfl
  · rcases h : (sendFunds w.pay1 dest amt).2 with e | tx
    · exact Or.inl (by simp [h])
    · exact Or.inr (by simp [h])

lemma paymentAttempt2_ok_of_restore (w : World) (seed2 dest : String) (amt : Int)
    (wi2 : WalletInfo) (hra : w.wallet2RestoreAfterFail = .ok wi2) :
    ∃ tx wst, (paymentAttempt2 w seed2 dest amt).2 = .ok (tx, wst) ∧
      (tx = "manual-payment-required" ∨ (sendFunds w.pay2 dest amt).2 = .ok tx) ∧
      (w.wallet2RestorePay = .ok wst ∨ w.wallet2RestoreAfterFail = .ok wst) := by
  unfold paymentAttempt2
  rcases hrp : w.wallet2RestorePay with e | wi
  · exact ⟨"manual-payment-required", wi2, by simp [hra], Or.inl rfl, Or.inr hra⟩
  · rcases h : (sendFunds w.pay2 dest amt).2 with e | tx
    · exact ⟨"manual-payment-required", wi2, by simp [h, hra], Or.inl rfl, Or.inr hra⟩
    · exact ⟨tx, wi, by simp [h], Or.inr rfl, Or.inl rfl⟩

lemma paymentAttempt2_ok_inv (w : World) (seed2 dest : String) (amt : Int)
    (tx : String) (wst : WalletInfo)
    (h : (paymentAttempt2 w seed2 dest amt).2 = .ok (tx, wst)) :
    (w.wallet2RestorePay = .ok wst ∨ w.wallet2RestoreAfterFail = .ok wst) := by
  unfold paymentAttempt2 at h
  rcases hrp : w.wallet2RestorePay with e | wi <;> rw [hrp] at h
  · rcases hra : w.wallet2RestoreAfterFail with e2 | wi2 <;> rw [hra] at h
    · cases h
    · simp only [Except.ok.injEq, Prod.mk.injEq] at h
      exact Or.inr (by rw [h.2])
  · rcases hs : (sendFunds w.pay2 dest amt).2 with e2 | tx2 <;> rw [hs] at h
    · rcases hra : w.wallet2RestoreAfterFail with e3 | wi2 <;> rw [hra] at h
      · cases h
      · simp only [Except.ok.injEq, Prod.mk.injEq] at h
        exact Or.inr (by rw [h.2])
    · simp only [Except.ok.injEq, Prod.mk.injEq] at h
      exact Or.inl (by rw [h.2])

/-- C4: with every step through deployment succeeding, if `register` throws
then the run ends with exactly that error and its trace stops at the
registration step — no payment restore or payment send is ever attempted — and
if `register` succeeds the trace extends the register-terminated prefix, so
registration completes before any payment step. -/
theorem claim_C4_register_completes_before_payments (env : Env) (w : World)
    (venv : ValidatedEnv) (fundInfo w1info w2info fundR w1r : WalletInfo)
    (ftx1 ftx2 ca : String)
    (hv : validateEnvironmentVariables env = .ok venv)
    (hfb : w.fundWalletBuild = .ok fundInfo)
    (hw1 : w.wallet1Build = .ok w1info)
    (hw2 : w.wallet2Build = .ok w2info)
    (hfr : w.fundRestore = .ok fundR)
    (hs1 : (sendFunds w.send1 w1info.address venv.FUNDING_AMOUNT).2 = .ok ftx1)
    (hs2 : (sendFunds w.send2 w2info.address venv.FUNDING_AMOUNT).2 = .ok ftx2)
    (hrd : w.wallet1RestoreDeploy = .ok w1r)
    (hcp : w.configureProvidersRes = .ok ())
    (hdep : w.deployRes = .ok ca) :
    (∀ e, w.registerRes = .error e →
      runTestSetup env w =
        ([.validateEv, .buildFundWalletEv, .createWalletEv 1 (toHex w.wallet1Bytes),
          .createWalletEv 2 (toHex w.wallet2Bytes), .restoreWalletEv venv.FUND_WALLET_SEED,
          .sendFundsEv w1info.address venv.FUNDING_AMOUNT,
          .sendFundsEv w2info.address venv.FUNDING_AMOUNT,
          .restoreWalletEv (toHex w.wallet1Bytes), .configureProvidersEv, .deployEv,
          .registerEv venv.REGISTRATION_EMAIL], Outcome.thrown e)) ∧
    (w.registerRes = .ok () →
      ∃ rest, (runTestSetup env w).1 =
        [.validateEv, .buildFundWalletEv, .createWalletEv 1 (toHex w.wallet1Bytes),
          .createWalletEv 2 (toHex w.wallet2Bytes), .restoreWalletEv venv.FUND_WALLET_SEED,
          .sendFundsEv w1info.address venv.FUNDING_AMOUNT,
          .sendFundsEv w2info.address venv.FUNDING_AMOUNT,
          .restoreWalletEv (toHex w.wallet1Bytes), .configureProvidersEv, .deployEv,
          .registerEv venv.REGISTRATION_EMAIL] ++ rest) := by
  constructor
  · intro e hre
    simp [runTestSetup, createNewWallet, hv, hfb, hw1, hw2, hfr, hs1, hs2, hrd,
      hcp, hdep, hre]
  · intro hre
    refine ⟨(paymentAttempt1 w (toHex w.wallet1Bytes) venv.DESTINATION_ADDRESS
        venv.PAYMENT_AMOUNT).1 ++
      (paymentAttempt2 w (toHex w.wallet2Bytes) venv.DESTINATION_ADDRESS
        venv.PAYMENT_AMOUNT).1, ?_⟩
    simp only [runTestSetup, createNewWallet, hv, hfb, hw1, hw2, hfr, hs1, hs2, hrd,
      hcp, hdep, hre]
    rcases hp2 : (paymentAttempt2 w (toHex w.wallet2Bytes) venv.DESTINATION_ADDRESS
        venv.PAYMENT_AMOUNT).2 with e | pr <;>
      simp [hp2]

/-- Witness for C4 at a concrete input: the all-success world, where
registration succeeds and the trace extends the register-terminated prefix. -/
theorem claim_C4_register_completes_before_payments_witness :
    worldAllOk.registerRes = .ok () ∧
    ∃ rest, (runTestSetup envAllSet worldAllOk).1 =
      [.validateEv, .buildFundWalletEv, .createWalletEv 1 (toHex worldAllOk.wallet1Bytes),
        .createWalletEv 2 (toHex worldAllOk.wallet2Bytes), .restoreWalletEv "fund-seed",
        .sendFundsEv "w1-addr" 5, .sendFundsEv "w2-addr" 5,
        .restoreWalletEv (toHex worldAllOk.wallet1Bytes), .configureProvidersEv,
        .deployEv, .registerEv "test@example.com"] ++ rest :=
  ⟨rfl,
   (claim_C4_register_completes_before_payments envAllSet worldAllOk
       ⟨"fund-seed", "dest-addr", 5, 7, "test@example.com"⟩
       ⟨"fund-addr", [9]⟩ ⟨"w1-addr", [1, 2]⟩ ⟨"w2-addr", [3, 4]⟩ ⟨"fund-addr", [9]⟩
       ⟨"w1-addr", [1, 2]⟩ "ftx1" "ftx2" "contract-addr"
       rfl rfl rfl rfl rfl rfl rfl rfl rfl rfl).2 rfl⟩

/-- C3: after environment validation and the three wallet creations succeed,
fund distribution first restores the fund wallet, then sends the funding
amount to wallet1, then to wallet2, in that order; if the restoration or
either transfer fails the run terminates immediately with exit code 1 and a
trace that stops at the failing step — containing no deployment, registration
or payment event — and when all three succeed the trace extends the
restore-send-send prefix in that order. -/
theorem claim_C3_fund_distribution_order_and_fatal (env : Env) (w : World)
    (venv : ValidatedEnv) (fundInfo w1info w2info : WalletInfo)
    (hv : validateEnvironmentVariables env = .ok venv)
    (hfb : w.fundWalletBuild = .ok fundInfo)
    (hw1 : w.wallet1Build = .ok w1info)
    (hw2 : w.wallet2Build = .ok w2info) :
    (∀ e, w.fundRestore = .error e →
      runTestSetup env w =
        ([.validateEv, .buildFundWalletEv, .createWalletEv 1 (toHex w.wallet1Bytes),
          .createWalletEv 2 (toHex w.wallet2Bytes),
          .restoreWalletEv venv.FUND_WALLET_SEED], Outcome.exited 1)) ∧
    (∀ fundR e, w.fundRestore = .ok fundR →
      (sendFunds w.send1 w1info.address venv.FUNDING_AMOUNT).2 = .error e →
      runTestSetup env w =
        ([.validateEv, .buildFundWalletEv, .createWalletEv 1 (toHex w.wallet1Bytes),
          .createWalletEv 2 (toHex w.wallet2Bytes),
          .restoreWalletEv venv.FUND_WALLET_SEED,
          .sendFundsEv w1info.address venv.FUNDING_AMOUNT], Outcome.exited 1)) ∧
    (∀ fundR ftx1 e, w.fundRestore = .ok fundR →
      (sendFunds w.send1 w1info.address venv.FUNDING_AMOUNT).2 = .ok ftx1 →
      (sendFunds w.send2 w2info.address venv.FUNDING_AMOUNT).2 = .error e →
      runTestSetup env w =
        ([.validateEv, .buildFundWalletEv, .createWalletEv 1 (toHex w.wallet1Bytes),
          .createWalletEv 2 (toHex w.wallet2Bytes),
          .restoreWalletEv venv.FUND_WALLET_SEED,
          .sendFundsEv w1info.address venv.FUNDING_AMOUNT,
          .sendFundsEv w2info.address venv.FUNDING_AMOUNT], Outcome.exited 1)) ∧
    (∀ fundR ftx1 ftx2, w.fundRestore = .ok fundR →
      (sendFunds w.send1 w1info.address venv.FUNDING_AMOUNT).2 = .ok ftx1 →
      (sendFunds w.send2 w2info.address venv.FUNDING_AMOUNT).2 = .ok ftx2 →
      ∃ rest, (runTestSetup env w).1 =
        [.validateEv, .buildFundWalletEv, .createWalletEv 1 (toHex w.wallet1Bytes),
          .createWalletEv 2 (toHex w.wallet2Bytes),
          .restoreWalletEv venv.FUND_WALLET_SEED,
          .sendFundsEv w1info.address venv.FUNDING_AMOUNT,
          .sendFundsEv w2info.address venv.FUNDING_AMOUNT] ++ rest) := by
  refine ⟨?_, ?_, ?_, ?_⟩
  · intro e hfr
    simp [runTestSetup, createNewWallet, hv, hfb, hw1, hw2, hfr]
  · intro fundR e hfr hs1
    simp [runTestSetup, createNewWallet, hv, hfb, hw1, hw2, hfr, hs1]
  · intro fundR ftx1 e hfr hs1 hs2
    simp [runTestSetup, createNewWallet, hv, hfb, hw1, hw2, hfr, hs1, hs2]
  · intro fundR ftx1 ftx2 hfr hs1 hs2
    simp only [runTestSetup, createNewWallet, hv, hfb, hw1, hw2, hfr, hs1, hs2]
    rcases hrd : w.wallet1RestoreDeploy with e | w1r
    · exact ⟨[Ev.restoreWalletEv (toHex w.wallet1Bytes)], by simp [hrd]⟩
    · rcases hcp : w.configureProvidersRes with e | u
      · exact ⟨[Ev.restoreWalletEv (toHex w.wallet1Bytes), Ev.configureProvidersEv],
          by simp [hcp, hrd]⟩
      · rcases hdep : w.deployRes with e | ca
        · exact ⟨[Ev.restoreWalletEv (toHex w.wallet1Bytes), Ev.configureProvidersEv,
            Ev.deployEv], by simp [hcp, hrd, hdep]⟩
        · rcases hre : w.registerRes with e | u2
          · exact ⟨[Ev.restoreWalletEv (toHex w.wallet1Bytes), Ev.configureProvidersEv,
              Ev.deployEv, Ev.registerEv venv.REGISTRATION_EMAIL],
              by simp [hcp, hrd, hdep, hre]⟩
          · rcases hp2 : (paymentAttempt2 w (toHex w.wallet2Bytes)
                venv.DESTINATION_ADDRESS venv.PAYMENT_AMOUNT).2 with e | pr
            · exact ⟨[Ev.restoreWalletEv (toHex w.wallet1Bytes), Ev.configureProvidersEv,
                Ev.deployEv, Ev.registerEv venv.REGISTRATION_EMAIL] ++
                (paymentAttempt1 w (toHex w.wallet1Bytes) venv.DESTINATION_ADDRESS
                  venv.PAYMENT_AMOUNT).1 ++
                (paymentAttempt2 w (toHex w.wallet2Bytes) venv.DESTINATION_ADDRESS
                  venv.PAYMENT_AMOUNT).1,
                by simp [hcp, hrd, hdep, hre, hp2]⟩
            · exact ⟨[Ev.restoreWalletEv (toHex w.wallet1Bytes), Ev.configureProvidersEv,
                Ev.deployEv, Ev.registerEv venv.REGISTRATION_EMAIL] ++
                (paymentAttempt1 w (toHex w.wallet1Bytes) venv.DESTINATION_ADDRESS
                  venv.PAYMENT_AMOUNT).1 ++
                (paymentAttempt2 w (toHex w.wallet2Bytes) venv.DESTINATION_ADDRESS
                  venv.PAYMENT_AMOUNT).1,
                by simp [hcp, hrd, hdep, hre, hp2]⟩

/-- Witness for C3 at a concrete input: the all-success world distributes
funds in restore-send-send order before the later steps. -/
theorem claim_C3_fund_distribution_order_and_fatal_witness :
    worldAllOk.fundRestore = .ok ⟨"fund-addr", [9]⟩ ∧
    ∃ rest, (runTestSetup envAllSet worldAllOk).1 =
      [.validateEv, .buildFundWalletEv, .createWalletEv 1 (toHex worldAllOk.wallet1Bytes),
        .createWalletEv 2 (toHex worldAllOk.wallet2Bytes), .restoreWalletEv "fund-seed",
        .sendFundsEv "w1-addr" 5, .sendFundsEv "w2-addr" 5] ++ rest :=
  ⟨rfl,
   (claim_C3_fund_distribution_order_and_fatal envAllSet worldAllOk
       ⟨"fund-seed", "dest-addr", 5, 7, "test@example.com"⟩
       ⟨"fund-addr", [9]⟩ ⟨"w1-addr", [1, 2]⟩ ⟨"w2-addr", [3, 4]⟩
       rfl rfl rfl rfl).2.2.2 ⟨"fund-addr", [9]⟩ "ftx1" "ftx2" rfl rfl rfl⟩

/-- Fixture: the all-success world except that the wallet2 payment-time
restoration fails and the post-failure restoration in the catch handler also
fails. -/
def worldPay2Abort : World :=
  { worldAllOk with
    wallet2RestorePay := .error (.error "node unavailable"),
    wallet2RestoreAfterFail := .error (.error "restore failed") }

/-- C9: with every step through registration succeeding, if the wallet2
payment attempt fails (at its restore or at the send) and the second,
unguarded restoration in the catch handler also fails, then the restoration
error propagates out of `runTestSetup` and the run aborts. -/
theorem claim_C9_second_restore_failure_aborts (env : Env) (w : World)
    (venv : ValidatedEnv) (fundInfo w1info w2info fundR w1r : WalletInfo)
    (ftx1 ftx2 ca : String)
    (hv : validateEnvironmentVariables env = .ok venv)
    (hfb : w.fundWalletBuild = .ok fundInfo)
    (hw1 : w.wallet1Build = .ok w1info)
    (hw2 : w.wallet2Build = .ok w2info)
    (hfr : w.fundRestore = .ok fundR)
    (hs1 : (sendFunds w.send1 w1info.address venv.FUNDING_AMOUNT).2 = .ok ftx1)
    (hs2 : (sendFunds w.send2 w2info.address venv.FUNDING_AMOUNT).2 = .ok ftx2)
    (hrd : w.wallet1RestoreDeploy = .ok w1r)
    (hcp : w.configureProvidersRes = .ok ())
    (hdep : w.deployRes = .ok ca)
    (hreg : w.registerRes = .ok ()) :
    (∀ e0 e, w.wallet2RestorePay = .error e0 →
      w.wallet2RestoreAfterFail = .error e →
      (runTestSetup env w).2 = Outcome.thrown e) ∧
    (∀ wi e1 e, w.wallet2RestorePay = .ok wi →
      (sendFunds w.pay2 venv.DESTINATION_ADDRESS venv.PAYMENT_AMOUNT).2 = .error e1 →
      w.wallet2RestoreAfterFail = .error e →
      (runTestSetup env w).2 = Outcome.thrown e) := by
  constructor
  · intro e0 e hrp hra
    have hp2 : (paymentAttempt2 w (toHex w.wallet2Bytes) venv.DESTINATION_ADDRESS
        venv.PAYMENT_AMOUNT).2 = .error e := by
      simp [paymentAttempt2, hrp, hra]
    simp [runTestSetup, createNewWallet, hv, hfb, hw1, hw2, hfr, hs1, hs2, hrd,
      hcp, hdep, hreg, hp2]
  · intro wi e1 e hrp hsend hra
    have hp2 : (paymentAttempt2 w (toHex w.wallet2Bytes) venv.DESTINATION_ADDRESS
        venv.PAYMENT_AMOUNT).2 = .error e := by
      simp [paymentAttempt2, hrp, hsend, hra]
    simp [runTestSetup, createNewWallet, hv, hfb, hw1, hw2, hfr, hs1, hs2, hrd,
      hcp, hdep, hreg, hp2]

/-- Witness for C9 at a concrete input: the wallet2 payment restore fails and
the catch-handler restore fails, so the run throws the second error. -/
theorem claim_C9_second_restore_failure_aborts_witness :
    worldPay2Abort.wallet2RestorePay = .error (JsError.error "node unavailable") ∧
    worldPay2Abort.wallet2RestoreAfterFail = .error (JsError.error "restore failed") ∧
    (runTestSetup envAllSet worldPay2Abort).2 =
      Outcome.thrown (JsError.error "restore failed") :=
  ⟨rfl, rfl,
   (claim_C9_second_restore_failure_aborts envAllSet worldPay2Abort
       ⟨"fund-seed", "dest-addr", 5, 7, "test@example.com"⟩
       ⟨"fund-addr", [9]⟩ ⟨"w1-addr", [1, 2]⟩ ⟨"w2-addr", [3, 4]⟩ ⟨"fund-addr", [9]⟩
       ⟨"w1-addr", [1, 2]⟩ "ftx1" "ftx2" "contract-addr"
       rfl rfl rfl rfl rfl rfl rfl rfl rfl rfl rfl).1
     (JsError.error "node unavailable") (JsError.error "restore failed") rfl rfl⟩

/-- Counterexample to C1 as stated: a run that reaches the payment steps (its
trace contains the registration event) in which the wallet2 payment attempt
fails, yet the run aborts by throwing instead of returning a scenario record —
because the catch handler's own restoration of wallet2 fails. -/
theorem claim_C1_payment_failure_never_aborts_counterexample :
    Ev.registerEv "test@example.com" ∈ (runTestSetup envAllSet worldPay2Abort).1 ∧
    worldPay2Abort.wallet2RestorePay = .error (JsError.error "node unavailable") ∧
    (runTestSetup envAllSet worldPay2Abort).2 =
      Outcome.thrown (JsError.error "restore failed") ∧
    ∀ r, (runTestSetup envAllSet worldPay2Abort).2 ≠ Outcome.ok r := by
  refine ⟨by decide, rfl, rfl, ?_⟩
  intro r hr
  rw [show (runTestSetup envAllSet worldPay2Abort).2 =
    Outcome.thrown (JsError.error "restore failed") from rfl] at hr
  cases hr

/-- C1 (amended): with every step through registration succeeding, and
provided the catch-handler restoration of wallet2 succeeds, a payment failure
from wallet1 or wallet2 never aborts the run: it returns a scenario record
whose paymentTxId1 and paymentTxId2 are each either the transaction id
returned by the corresponding submission or the literal sentinel
"manual-payment-required". -/
theorem claim_C1_payment_fallback_completes (env : Env) (w : World)
    (venv : ValidatedEnv) (fundInfo w1info w2info fundR w1r : WalletInfo)
    (ftx1 ftx2 ca : String)
    (hv : validateEnvironmentVariables env = .ok venv)
    (hfb : w.fundWalletBuild = .ok fundInfo)
    (hw1 : w.wallet1Build = .ok w1info)
    (hw2 : w.wallet2Build = .ok w2info)
    (hfr : w.fundRestore = .ok fundR)
    (hs1 : (sendFunds w.send1 w1info.address venv.FUNDING_AMOUNT).2 = .ok ftx1)
    (hs2 : (sendFunds w.send2 w2info.address venv.FUNDING_AMOUNT).2 = .ok ftx2)
    (hrd : w.wallet1RestoreDeploy = .ok w1r)
    (hcp : w.configureProvidersRes = .ok ())
    (hdep : w.deployRes = .ok ca)
    (hreg : w.registerRes = .ok ())
    (hra : ∃ wi, w.wallet2RestoreAfterFail = .ok wi) :
    ∃ r, (runTestSetup env w).2 = Outcome.ok r ∧
      (r.paymentTxId1 = "manual-payment-required" ∨
        (sendFunds w.pay1 venv.DESTINATION_ADDRESS venv.PAYMENT_AMOUNT).2 =
          .ok r.paymentTxId1) ∧
      (r.paymentTxId2 = "manual-payment-required" ∨
        (sendFunds w.pay2 venv.DESTINATION_ADDRESS venv.PAYMENT_AMOUNT).2 =
          .ok r.paymentTxId2) := by
  obtain ⟨wi2, hra⟩ := hra
  obtain ⟨tx, wst, hp2, htx, hwst⟩ :=
    paymentAttempt2_ok_of_restore w (toHex w.wallet2Bytes) venv.DESTINATION_ADDRESS
      venv.PAYMENT_AMOUNT wi2 hra
  refine ⟨{
    fundWalletSeed := venv.FUND_WALLET_SEED,
    wallet1Seed := toHex w.wallet1Bytes,
    wallet2Seed := toHex w.wallet2Bytes,
    contractAddress := ca,
    wallet1PublicKey := toHex w1r.coinPublicKey,
    wallet2PublicKey := toHex wst.coinPublicKey,
    destinationAddress := venv.DESTINATION_ADDRESS,
    fundWalletAddress := fundInfo.address,
    wallet1Address := w1info.address,
    wallet2Address := w2info.address,
    fundingTxId1 := ftx1,
    fundingTxId2 := ftx2,
    paymentTxId1 := (paymentAttempt1 w (toHex w.wallet1Bytes) venv.DESTINATION_ADDRESS
      venv.PAYMENT_AMOUNT).2,
    paymentTxId2 := tx }, ?_, ?_, ?_⟩
  · simp [runTestSetup, createNewWallet, hv, hfb, hw1, hw2, hfr, hs1, hs2, hrd,
      hcp, hdep, hreg, hp2]
  · simpa using paymentAttempt1_sentinel_or_tx w (toHex w.wallet1Bytes)
      venv.DESTINATION_ADDRESS venv.PAYMENT_AMOUNT
  · simpa using htx

/-- Witness for C1 (amended) at a concrete input: the all-success world. -/
theorem claim_C1_payment_fallback_completes_witness :
    worldAllOk.wallet2RestoreAfterFail = .ok ⟨"w2-addr", [3, 4]⟩ ∧
    ∃ r, (runTestSetup envAllSet worldAllOk).2 = Outcome.ok r ∧
      (r.paymentTxId1 = "manual-payment-required" ∨
        (sendFunds worldAllOk.pay1 "dest-addr" 7).2 = .ok r.paymentTxId1) ∧
      (r.paymentTxId2 = "manual-payment-required" ∨
        (sendFunds worldAllOk.pay2 "dest-addr" 7).2 = .ok r.paymentTxId2) :=
  ⟨rfl,
   claim_C1_payment_fallback_completes envAllSet worldAllOk
     ⟨"fund-seed", "dest-addr", 5, 7, "test@example.com"⟩
     ⟨"fund-addr", [9]⟩ ⟨"w1-addr", [1, 2]⟩ ⟨"w2-addr", [3, 4]⟩ ⟨"fund-addr", [9]⟩
     ⟨"w1-addr", [1, 2]⟩ "ftx1" "ftx2" "contract-addr"
     rfl rfl rfl rfl rfl rfl rfl rfl rfl rfl rfl ⟨⟨"w2-addr", [3, 4]⟩, rfl⟩⟩

lemma createNewWallet_ok_inv (bytes : List Nat) (bd : Except JsError WalletInfo)
    (s : String) (wi : WalletInfo) (h : createNewWallet bytes bd = .ok (s, wi)) :
    s = toHex bytes ∧ bd = .ok wi := by
  unfold createNewWallet at h
  rcases bd with e | wi'
  · cases h
  · simp only [Except.ok.injEq, Prod.mk.injEq] at h
    exact ⟨h.1.symm, by rw [h.2]⟩

/-- C5: in every successful run, the wallet1Address and wallet2Address fields
of the returned record are exactly the addresses observed by `createNewWallet`
at wallet-creation time, and the two public-key fields are the lowercase
hexadecimal renderings of the respective wallet's coin public key bytes —
twice as many hex characters as key bytes, all of them hexadecimal digits. -/
theorem claim_C5_result_addresses_and_keys (env : Env) (w : World) (tr : List Ev)
    (r : TestSetupResult) (h : runTestSetup env w = (tr, Outcome.ok r)) :
    (∃ w1info, createNewWallet w.wallet1Bytes w.wallet1Build =
        .ok (toHex w.wallet1Bytes, w1info) ∧
      r.wallet1Address = w1info.address) ∧
    (∃ w2info, createNewWallet w.wallet2Bytes w.wallet2Build =
        .ok (toHex w.wallet2Bytes, w2info) ∧
      r.wallet2Address = w2info.address) ∧
    (∃ w1r, w.wallet1RestoreDeploy = .ok w1r ∧
      r.wallet1PublicKey = toHex w1r.coinPublicKey ∧
      r.wallet1PublicKey.length = 2 * w1r.coinPublicKey.length ∧
      r.wallet1PublicKey.data.all isLowerHexDigit = true) ∧
    (∃ wst, (w.wallet2RestorePay = .ok wst ∨ w.wallet2RestoreAfterFail = .ok wst) ∧
      r.wallet2PublicKey = toHex wst.coinPublicKey ∧
      r.wallet2PublicKey.length = 2 * wst.coinPublicKey.length ∧
      r.wallet2PublicKey.data.all isLowerHexDigit = true) := by
  rcases hv : validateEnvironmentVariables env with e | venv
  · simp [runTestSetup, hv] at h
  rcases hfb : w.fundWalletBuild with e | fundInfo
  · simp [runTestSetup, hv, hfb] at h
  rcases hcw1 : createNewWallet w.wallet1Bytes w.wallet1Build with e | p1
  · simp [runTestSetup, hv, hfb, hcw1] at h
  obtain ⟨seed1, w1info⟩ := p1
  rcases hcw2 : createNewWallet w.wallet2Bytes w.wallet2Build with e | p2
  · simp [runTestSetup, hv, hfb, hcw1, hcw2] at h
  obtain ⟨seed2, w2info⟩ := p2
  rcases hfr : w.fundRestore with e | fundR
  · simp [runTestSetup, hv, hfb, hcw1, hcw2, hfr] at h
  rcases hsn1 : (sendFunds w.send1 w1info.address venv.FUNDING_AMOUNT).2 with e | ftx1
  · simp [runTestSetup, hv, hfb, hcw1, hcw2, hfr, hsn1] at h
  rcases hsn2 : (sendFunds w.send2 w2info.address venv.FUNDING_AMOUNT).2 with e | ftx2
  · simp [runTestSetup, hv, hfb, hcw1, hcw2, hfr, hsn1, hsn2] at h
  rcases hrd : w.wallet1RestoreDeploy with e | w1r
  · simp [runTestSetup, hv, hfb, hcw1, hcw2, hfr, hsn1, hsn2, hrd] at h
  rcases hcp : w.configureProvidersRes with e | u
  · simp [runTestSetup, hv, hfb, hcw1, hcw2, hfr, hsn1, hsn2, hrd, hcp] at h
  rcases hdep : w.deployRes with e | ca
  · simp [runTestSetup, hv, hfb, hcw1, hcw2, hfr, hsn1, hsn2, hrd, hcp, hdep] at h
  rcases hreg : w.registerRes with e | u2
  · simp [runTestSetup, hv, hfb, hcw1, hcw2, hfr, hsn1, hsn2, hrd, hcp, hdep,
      hreg] at h
  rcases hp2 : (paymentAttempt2 w seed2 venv.DESTINATION_ADDRESS
      venv.PAYMENT_AMOUNT).2 with e | pr
  · simp [runTestSetup, hv, hfb, hcw1, hcw2, hfr, hsn1, hsn2, hrd, hcp, hdep,
      hreg, hp2] at h
  obtain ⟨tx2, wst⟩ := pr
  simp only [runTestSetup, hv, hfb, hcw1, hcw2, hfr, hsn1, hsn2, hrd, hcp, hdep,
    hreg, hp2, Prod.mk.injEq, Outcome.ok.injEq] at h
  obtain ⟨hs1, hb1⟩ := createNewWallet_ok_inv _ _ _ _ hcw1
  obtain ⟨hs2, hb2⟩ := createNewWallet_ok_inv _ _ _ _ hcw2
  subst hs1
  subst hs2
  obtain ⟨-, hrec⟩ := h
  subst hrec
  refine ⟨⟨w1info, rfl, rfl⟩, ⟨w2info, rfl, rfl⟩,
    ⟨w1r, rfl, rfl, toHex_length _, toHex_all_hex _⟩,
    ⟨wst, paymentAttempt2_ok_inv w (toHex w.wallet2Bytes) venv.DESTINATION_ADDRESS
      venv.PAYMENT_AMOUNT tx2 wst hp2, rfl, toHex_length _, toHex_all_hex _⟩⟩

/-- Fixture: the event trace of the all-success run. -/
def traceAllOk : List Ev :=
  [.validateEv, .buildFundWalletEv, .createWalletEv 1 "ab", .createWalletEv 2 "cd",
   .restoreWalletEv "fund-seed", .sendFundsEv "w1-addr" 5, .sendFundsEv "w2-addr" 5,
   .restoreWalletEv "ab", .configureProvidersEv, .deployEv,
   .registerEv "test@example.com", .restoreWalletEv "ab", .sendFundsEv "dest-addr" 7,
   .restoreWalletEv "cd", .sendFundsEv "dest-addr" 7]

/-- Fixture: the scenario record of the all-success run. -/
def resultAllOk : TestSetupResult where
  fundWalletSeed := "fund-seed"
  wallet1Seed := "ab"
  wallet2Seed := "cd"
  contractAddress := "contract-addr"
  wallet1PublicKey := "0102"
  wallet2PublicKey := "0304"
  destinationAddress := "dest-addr"
  fundWalletAddress := "fund-addr"
  wallet1Address := "w1-addr"
  wallet2Address := "w2-addr"
  fundingTxId1 := "ftx1"
  fundingTxId2 := "ftx2"
  paymentTxId1 := "ptx1"
  paymentTxId2 := "ptx2"

/-- Witness for C5 at a concrete input: the all-success run returns
`resultAllOk` and its address and public-key fields are as claimed. -/
theorem claim_C5_result_addresses_and_keys_witness :
    runTestSetup envAllSet worldAllOk = (traceAllOk, Outcome.ok resultAllOk) ∧
    (∃ w1info, createNewWallet worldAllOk.wallet1Bytes worldAllOk.wallet1Build =
        .ok (toHex worldAllOk.wallet1Bytes, w1info) ∧
      resultAllOk.wallet1Address = w1info.address) ∧
    (∃ w2info, createNewWallet worldAllOk.wallet2Bytes worldAllOk.wallet2Build =
        .ok (toHex worldAllOk.wallet2Bytes, w2info) ∧
      resultAllOk.wallet2Address = w2info.address) ∧
    (∃ w1r, worldAllOk.wallet1RestoreDeploy = .ok w1r ∧
      resultAllOk.wallet1PublicKey = toHex w1r.coinPublicKey ∧
      resultAllOk.wallet1PublicKey.length = 2 * w1r.coinPublicKey.length ∧
      resultAllOk.wallet1PublicKey.data.all isLowerHexDigit = true) ∧
    (∃ wst, (worldAllOk.wallet2RestorePay = .ok wst ∨
        worldAllOk.wallet2RestoreAfterFail = .ok wst) ∧
      resultAllOk.wallet2PublicKey = toHex wst.coinPublicKey ∧
      resultAllOk.wallet2PublicKey.length = 2 * wst.coinPublicKey.length ∧
      resultAllOk.wallet2PublicKey.data.all isLowerHexDigit = true) :=
  ⟨rfl, claim_C5_result_addresses_and_keys envAllSet worldAllOk traceAllOk
    resultAllOk rfl⟩

end MarketplaceRegistry
